import Mathlib

/-!
# Verification of the AFEM-OCC wrapper layer

Shallow embedding of the repository's three source files:

* `asap/structure/methods/split_parts.py` — `split_part`
* `afem/structure/fix.py` — `FixAssembly`
* `afem/topology/entities.py` — `Shape` hierarchy, `BBox`

The external OpenCASCADE kernel is modelled by explicit data: a kernel
topology handle `TopoDS_Shape` carries its null flag, its type tag, and
the identity data (`TShape`, `Location`, `Orientation`) that the kernel's
documented equality and hashing notions are defined over.  Kernel
algorithms (the splitter, healing, the sub-shape explorer) are modelled
as function-valued parameters, so theorems quantify over every possible
kernel behaviour.  Python in-place mutation is translated to explicit
state passing, and calls into kernel operators are additionally recorded
in an event trace so that "operator never invoked" claims are expressible.
-/

/-- The kernel's topology type tag (`OCCT.TopAbs.TopAbs_ShapeEnum`):
eight concrete kinds plus the abstract `TopAbs_SHAPE`. -/
inductive TopAbs_ShapeEnum where
  | TopAbs_COMPOUND
  | TopAbs_COMPSOLID
  | TopAbs_SOLID
  | TopAbs_SHELL
  | TopAbs_FACE
  | TopAbs_WIRE
  | TopAbs_EDGE
  | TopAbs_VERTEX
  | TopAbs_SHAPE
deriving DecidableEq, Repr

/-- A kernel topology handle (`OCCT.TopoDS.TopoDS_Shape`).  `IsNull` and
`ShapeType` are the kernel queries of the same names; `tshape`,
`location` and `orientation` model the identity data the kernel's
`IsSame` / `IsPartner` / `IsEqual` / `HashCode` are documented to use. -/
structure TopoDS_Shape where
  IsNull : Bool
  ShapeType : TopAbs_ShapeEnum
  tshape : Nat
  location : Nat
  orientation : Nat
deriving DecidableEq, Repr

namespace TopoDS_Shape

/-- Kernel `IsSame`: same `TShape` and `Location`; orientation ignored. -/
def IsSame (a b : TopoDS_Shape) : Bool :=
  decide (a.tshape = b.tshape ∧ a.location = b.location)

/-- Kernel `IsPartner`: same `TShape`; location and orientation ignored. -/
def IsPartner (a b : TopoDS_Shape) : Bool :=
  decide (a.tshape = b.tshape)

/-- Kernel `IsEqual`: same `TShape`, `Location` and `Orientation`. -/
def IsEqual (a b : TopoDS_Shape) : Bool :=
  decide (a.tshape = b.tshape ∧ a.location = b.location ∧
    a.orientation = b.orientation)

/-- Kernel `HashCode(upper)`: per its documented contract it is computed
from the `TShape` and `Location` only (orientation is not used) and lies
in `[1, upper]`.  The concrete mixing below is one such function; every
claim about it uses only the documented contract. -/
def HashCode (a : TopoDS_Shape) (upper : Nat) : Nat :=
  1 + (a.tshape * 31 + a.location) % upper

end TopoDS_Shape

/-! ## `split_part` (asap/structure/methods/split_parts.py)

The `GEOMAlgo_Splitter` kernel operator is modelled by a function from the
registered argument and tool lists to an outcome: an integer error status,
the post-operation shape-history mapping, and what the reshape step reports
for a given list of objects.  `split_part` threads its two shape objects
explicitly (Python mutates them in place) and records every call into the
splitting operator or the reshape collaborator in an event trace. -/

/-- Outcome of `GEOMAlgo_Splitter.Perform()`: the `ErrorStatus()` integer,
the shape-history mapping used by the reshape step, and the result the
reshape step reports for a given list of objects. -/
structure SplitOutcome where
  error_status : Int
  history : TopoDS_Shape → TopoDS_Shape
  report : List TopoDS_Shape → Bool

/-- The splitting kernel: `Perform` as a function of the shapes registered
via `AddArgument` (first list) and `AddTool` (second list). -/
structure SplitKernel where
  perform : List TopoDS_Shape → List TopoDS_Shape → SplitOutcome

/-- Trace of external calls made by `split_part`. -/
inductive SplitEvent where
  | perform_call (args tools : List TopoDS_Shape)
  | reshape_call (parts : List TopoDS_Shape)
deriving DecidableEq, Repr

/-- Modelled from the spec: `reshape_parts` (module
`asap/structure/methods/reshape_parts.py`, not present in the sources)
applies the kernel's shape-history mapping to update each given object's
underlying shape in place, and returns whatever the replacement step
reports.  Here it returns the report together with the updated shapes. -/
def reshape_parts (out : SplitOutcome) (parts : List TopoDS_Shape) :
    Bool × List TopoDS_Shape :=
  (out.report parts, parts.map out.history)

/-- `split_part(part, splitter, split_both=True)`.  Returns the Python
return value, the final states of `part` and `splitter`, and the trace of
kernel-operator and reshape calls. -/
def split_part (k : SplitKernel) (part splitter : TopoDS_Shape)
    (split_both : Bool) :
    Bool × TopoDS_Shape × TopoDS_Shape × List SplitEvent :=
  if part.IsNull || splitter.IsNull then
    (false, part, splitter, [])
  else
    let args := if split_both then [part, splitter] else [part]
    let tools := if split_both then ([] : List TopoDS_Shape) else [splitter]
    let out := k.perform args tools
    if out.error_status ≠ 0 then
      (false, part, splitter, [SplitEvent.perform_call args tools])
    else if split_both then
      let r := reshape_parts out [part, splitter]
      (r.1, r.2.getD 0 part, r.2.getD 1 splitter,
        [SplitEvent.perform_call args tools,
         SplitEvent.reshape_call [part, splitter]])
    else
      let r := reshape_parts out [part]
      (r.1, r.2.getD 0 part, splitter,
        [SplitEvent.perform_call args tools,
         SplitEvent.reshape_call [part]])

/-- Concrete non-null handles and kernels used to instantiate the
hypothesis-bearing theorems. -/
def solidA : TopoDS_Shape :=
  { IsNull := false, ShapeType := .TopAbs_SOLID, tshape := 3,
    location := 0, orientation := 0 }

def solidB : TopoDS_Shape :=
  { IsNull := false, ShapeType := .TopAbs_SOLID, tshape := 4,
    location := 0, orientation := 0 }

def nullShape : TopoDS_Shape :=
  { IsNull := true, ShapeType := .TopAbs_SHAPE, tshape := 0,
    location := 0, orientation := 0 }

/-- A splitting kernel that always succeeds; its history bumps the
`TShape` id by 100 and the reshape step reports `true`. -/
def okSplitKernel : SplitKernel :=
  { perform := fun _ _ =>
      { error_status := 0,
        history := fun s => { s with tshape := s.tshape + 100 },
        report := fun _ => true } }

/-- A splitting kernel that always fails with error status 7. -/
def badSplitKernel : SplitKernel :=
  { perform := fun _ _ =>
      { error_status := 7,
        history := fun s => s,
        report := fun _ => true } }

/-- C1: with non-null inputs, `split_both = True` registers both the part
and the splitter as arguments of the splitting operator (no tools) and, on
kernel success, applies the reshape step to both, replacing each with its
history image; `split_both = False` registers the splitter as a pure tool
and applies the reshape step only to the part — the splitter is returned
unchanged; in both modes the Python return value is exactly what the
reshape step reports. -/
theorem C1_split_modes (k : SplitKernel) (part splitter : TopoDS_Shape)
    (hp : part.IsNull = false) (hs : splitter.IsNull = false) :
    ((k.perform [part, splitter] []).error_status = 0 →
      split_part k part splitter true =
        ((k.perform [part, splitter] []).report [part, splitter],
         (k.perform [part, splitter] []).history part,
         (k.perform [part, splitter] []).history splitter,
         [SplitEvent.perform_call [part, splitter] [],
          SplitEvent.reshape_call [part, splitter]])) ∧
    ((k.perform [part] [splitter]).error_status = 0 →
      split_part k part splitter false =
        ((k.perform [part] [splitter]).report [part],
         (k.perform [part] [splitter]).history part,
         splitter,
         [SplitEvent.perform_call [part] [splitter],
          SplitEvent.reshape_call [part]])) := by
  constructor <;> intro herr <;>
    simp [split_part, reshape_parts, hp, hs, herr]

/-- Witness for C1 at a concrete kernel and concrete solids. -/
theorem C1_split_modes_witness :
    split_part okSplitKernel solidA solidB true =
      (true, { solidA with tshape := 103 }, { solidB with tshape := 104 },
       [SplitEvent.perform_call [solidA, solidB] [],
        SplitEvent.reshape_call [solidA, solidB]]) ∧
    split_part okSplitKernel solidA solidB false =
      (true, { solidA with tshape := 103 }, solidB,
       [SplitEvent.perform_call [solidA] [solidB],
        SplitEvent.reshape_call [solidA]]) :=
  ⟨(C1_split_modes okSplitKernel solidA solidB rfl rfl).1 rfl,
   (C1_split_modes okSplitKernel solidA solidB rfl rfl).2 rfl⟩

/-- C2: if either input is a null handle, `split_part` returns `False`
at once, leaves both inputs unchanged, and makes no kernel call at all
(empty trace, result independent of the kernel). -/
theorem C2_null_inputs (k : SplitKernel) (part splitter : TopoDS_Shape)
    (split_both : Bool)
    (h : part.IsNull = true ∨ splitter.IsNull = true) :
    split_part k part splitter split_both = (false, part, splitter, []) := by
  rcases h with h | h <;> simp [split_part, h]

/-- Witness for C2: a null part with a non-null splitter, under a kernel
that would have succeeded. -/
theorem C2_null_inputs_witness :
    split_part okSplitKernel nullShape solidB true =
      (false, nullShape, solidB, []) :=
  C2_null_inputs okSplitKernel nullShape solidB true (Or.inl rfl)

/-- C3: with non-null inputs, if the kernel reports a non-zero error
status after `Perform`, `split_part` returns `False`; the trace holds the
single operator call and no reshape call, and both inputs are returned
unchanged. -/
theorem C3_kernel_error (k : SplitKernel) (part splitter : TopoDS_Shape)
    (split_both : Bool)
    (hp : part.IsNull = false) (hs : splitter.IsNull = false)
    (herr : (k.perform (if split_both then [part, splitter] else [part])
        (if split_both then ([] : List TopoDS_Shape) else [splitter])
        ).error_status ≠ 0) :
    split_part k part splitter split_both =
      (false, part, splitter,
       [SplitEvent.perform_call
          (if split_both then [part, splitter] else [part])
          (if split_both then ([] : List TopoDS_Shape) else [splitter])]) := by
  simp only [split_part, hp, hs, Bool.or_self, Bool.false_or, if_neg]
  simp [herr]

/-- Witness for C3 at the always-failing kernel. -/
theorem C3_kernel_error_witness :
    split_part badSplitKernel solidA solidB true =
      (false, solidA, solidB,
       [SplitEvent.perform_call [solidA, solidB] []]) :=
  C3_kernel_error badSplitKernel solidA solidB true rfl rfl (by decide)

/-! ## The `Shape` wrapper hierarchy (afem/topology/entities.py)

The Python subclass an instance belongs to is modelled by a tag
`ShapeClass`; a wrapper is the tag together with the wrapped kernel
handle.  Each typed `__init__` is a fallible constructor returning
`Except PyError Shape`; `Shape.wrap` is the total factory. -/

/-- Which Python wrapper class an instance belongs to. -/
inductive ShapeClass where
  | base
  | vertex
  | edge
  | wire
  | face
  | shell
  | solid
  | compsolid
  | compound
deriving DecidableEq, Repr

/-- A Python exception kind raised by the wrapper layer. -/
inductive PyError where
  | valueError
  | typeError
deriving DecidableEq, Repr

/-- A wrapper instance: its class tag plus the underlying kernel handle
(the `self._shape` attribute). -/
structure Shape where
  cls : ShapeClass
  shape : TopoDS_Shape
deriving DecidableEq, Repr

namespace Shape

/-- The class-level type constants `Shape.SHAPE`, `Shape.VERTEX`, … -/
def SHAPE : TopAbs_ShapeEnum := .TopAbs_SHAPE
def VERTEX : TopAbs_ShapeEnum := .TopAbs_VERTEX
def EDGE : TopAbs_ShapeEnum := .TopAbs_EDGE
def WIRE : TopAbs_ShapeEnum := .TopAbs_WIRE
def FACE : TopAbs_ShapeEnum := .TopAbs_FACE
def SHELL : TopAbs_ShapeEnum := .TopAbs_SHELL
def SOLID : TopAbs_ShapeEnum := .TopAbs_SOLID
def COMPSOLID : TopAbs_ShapeEnum := .TopAbs_COMPSOLID
def COMPOUND : TopAbs_ShapeEnum := .TopAbs_COMPOUND

/-- `Shape.hash_code`: the kernel hash with upper limit 99999. -/
def hash_code (s : Shape) : Nat :=
  s.shape.HashCode 99999

/-- `Shape.is_null`. -/
def is_null (s : Shape) : Bool :=
  s.shape.IsNull

/-- `Shape.shape_type`. -/
def shape_type (s : Shape) : TopAbs_ShapeEnum :=
  s.shape.ShapeType

/-- `Shape.is_partner`. -/
def is_partner (s other : Shape) : Bool :=
  s.shape.IsPartner other.shape

/-- `Shape.is_same`. -/
def is_same (s other : Shape) : Bool :=
  s.shape.IsSame other.shape

/-- `Shape.is_equal`. -/
def is_equal (s other : Shape) : Bool :=
  s.shape.IsEqual other.shape

end Shape

/-- `Shape.__eq__` delegates to `is_same`, so `==` on wrappers is `is_same`. -/
instance : BEq Shape := ⟨Shape.is_same⟩

/-- `Vertex.__init__`: reject a null handle with `ValueError`, reject a
non-vertex type with `TypeError`, else wrap (the `TopoDS.Vertex_`
downcast changes the handle's static type only, not its data). -/
def Vertex.init (h : TopoDS_Shape) : Except PyError Shape :=
  if h.IsNull then .error .valueError
  else if ¬ (h.ShapeType = Shape.VERTEX) then .error .typeError
  else .ok { cls := .vertex, shape := h }

/-- `Edge.__init__`. -/
def Edge.init (h : TopoDS_Shape) : Except PyError Shape :=
  if h.IsNull then .error .valueError
  else if ¬ (h.ShapeType = Shape.EDGE) then .error .typeError
  else .ok { cls := .edge, shape := h }

/-- `Wire.__init__`. -/
def Wire.init (h : TopoDS_Shape) : Except PyError Shape :=
  if h.IsNull then .error .valueError
  else if ¬ (h.ShapeType = Shape.WIRE) then .error .typeError
  else .ok { cls := .wire, shape := h }

/-- `Face.__init__`. -/
def Face.init (h : TopoDS_Shape) : Except PyError Shape :=
  if h.IsNull then .error .valueError
  else if ¬ (h.ShapeType = Shape.FACE) then .error .typeError
  else .ok { cls := .face, shape := h }

/-- `Shell.__init__`. -/
def Shell.init (h : TopoDS_Shape) : Except PyError Shape :=
  if h.IsNull then .error .valueError
  else if ¬ (h.ShapeType = Shape.SHELL) then .error .typeError
  else .ok { cls := .shell, shape := h }

/-- `Solid.__init__`. -/
def Solid.init (h : TopoDS_Shape) : Except PyError Shape :=
  if h.IsNull then .error .valueError
  else if ¬ (h.ShapeType = Shape.SOLID) then .error .typeError
  else .ok { cls := .solid, shape := h }

/-- `CompSolid.__init__`. -/
def CompSolid.init (h : TopoDS_Shape) : Except PyError Shape :=
  if h.IsNull then .error .valueError
  else if ¬ (h.ShapeType = Shape.COMPSOLID) then .error .typeError
  else .ok { cls := .compsolid, shape := h }

/-- `Compound.__init__`. -/
def Compound.init (h : TopoDS_Shape) : Except PyError Shape :=
  if h.IsNull then .error .valueError
  else if ¬ (h.ShapeType = Shape.COMPOUND) then .error .typeError
  else .ok { cls := .compound, shape := h }

/-- `Shape.wrap`: a null handle is returned as a base `Shape`; otherwise
dispatch on the kernel type tag to the matching subclass (each typed
constructor's two guards hold on its dispatch branch, so construction
succeeds and yields the tagged wrapper); an abstract-typed handle falls
through to a base `Shape`. -/
def Shape.wrap (h : TopoDS_Shape) : Shape :=
  if h.IsNull then { cls := .base, shape := h }
  else if h.ShapeType = Shape.VERTEX then { cls := .vertex, shape := h }
  else if h.ShapeType = Shape.EDGE then { cls := .edge, shape := h }
  else if h.ShapeType = Shape.WIRE then { cls := .wire, shape := h }
  else if h.ShapeType = Shape.FACE then { cls := .face, shape := h }
  else if h.ShapeType = Shape.SHELL then { cls := .shell, shape := h }
  else if h.ShapeType = Shape.SOLID then { cls := .solid, shape := h }
  else if h.ShapeType = Shape.COMPSOLID then { cls := .compsolid, shape := h }
  else if h.ShapeType = Shape.COMPOUND then { cls := .compound, shape := h }
  else { cls := .base, shape := h }

/-- `Shape.wrap` never changes the wrapped handle. -/
theorem Shape.wrap_shape (h : TopoDS_Shape) : (Shape.wrap h).shape = h := by
  unfold Shape.wrap
  split <;> [rfl; (split <;> [rfl; (split <;> [rfl; (split <;> [rfl;
    (split <;> [rfl; (split <;> [rfl; (split <;> [rfl; (split <;> [rfl;
    (split <;> rfl)])])])])])])])]

/-- A concrete non-null handle for each of the eight concrete kinds, plus
one with the abstract `TopAbs_SHAPE` tag. -/
def vertexA : TopoDS_Shape :=
  { IsNull := false, ShapeType := .TopAbs_VERTEX, tshape := 10,
    location := 0, orientation := 0 }

def edgeA : TopoDS_Shape :=
  { IsNull := false, ShapeType := .TopAbs_EDGE, tshape := 11,
    location := 0, orientation := 0 }

def wireA : TopoDS_Shape :=
  { IsNull := false, ShapeType := .TopAbs_WIRE, tshape := 12,
    location := 0, orientation := 0 }

def faceA : TopoDS_Shape :=
  { IsNull := false, ShapeType := .TopAbs_FACE, tshape := 13,
    location := 0, orientation := 0 }

def shellA : TopoDS_Shape :=
  { IsNull := false, ShapeType := .TopAbs_SHELL, tshape := 14,
    location := 0, orientation := 0 }

def compsolidA : TopoDS_Shape :=
  { IsNull := false, ShapeType := .TopAbs_COMPSOLID, tshape := 15,
    location := 0, orientation := 0 }

def compoundA : TopoDS_Shape :=
  { IsNull := false, ShapeType := .TopAbs_COMPOUND, tshape := 16,
    location := 0, orientation := 0 }

/-- C4: `Shape.wrap` keeps the handle; on a null handle it does not
reject but returns an untyped base wrapper; on a non-null handle whose
reported type is one of the concrete topology kinds it returns an
instance of the matching typed subclass. -/
theorem C4_wrap_dispatch (h : TopoDS_Shape) :
    (Shape.wrap h).shape = h ∧
    (h.IsNull = true → (Shape.wrap h).cls = ShapeClass.base) ∧
    (h.IsNull = false →
      (h.ShapeType = Shape.VERTEX → (Shape.wrap h).cls = ShapeClass.vertex) ∧
      (h.ShapeType = Shape.EDGE → (Shape.wrap h).cls = ShapeClass.edge) ∧
      (h.ShapeType = Shape.WIRE → (Shape.wrap h).cls = ShapeClass.wire) ∧
      (h.ShapeType = Shape.FACE → (Shape.wrap h).cls = ShapeClass.face) ∧
      (h.ShapeType = Shape.SHELL → (Shape.wrap h).cls = ShapeClass.shell) ∧
      (h.ShapeType = Shape.SOLID → (Shape.wrap h).cls = ShapeClass.solid) ∧
      (h.ShapeType = Shape.COMPSOLID →
        (Shape.wrap h).cls = ShapeClass.compsolid) ∧
      (h.ShapeType = Shape.COMPOUND →
        (Shape.wrap h).cls = ShapeClass.compound)) := by
  refine ⟨Shape.wrap_shape h, fun hn => ?_, fun hn => ?_⟩
  · simp [Shape.wrap, hn]
  · refine ⟨?_, ?_, ?_, ?_, ?_, ?_, ?_, ?_⟩ <;> intro ht <;>
      simp [Shape.wrap, hn, ht, Shape.VERTEX, Shape.EDGE, Shape.WIRE,
        Shape.FACE, Shape.SHELL, Shape.SOLID, Shape.COMPSOLID, Shape.COMPOUND]

/-- Witness for C4: a null handle wraps as base; one handle of each
concrete kind wraps as its matching subclass. -/
theorem C4_wrap_dispatch_witness :
    (Shape.wrap nullShape).cls = ShapeClass.base ∧
    (Shape.wrap vertexA).cls = ShapeClass.vertex ∧
    (Shape.wrap edgeA).cls = ShapeClass.edge ∧
    (Shape.wrap wireA).cls = ShapeClass.wire ∧
    (Shape.wrap faceA).cls = ShapeClass.face ∧
    (Shape.wrap shellA).cls = ShapeClass.shell ∧
    (Shape.wrap solidA).cls = ShapeClass.solid ∧
    (Shape.wrap compsolidA).cls = ShapeClass.compsolid ∧
    (Shape.wrap compoundA).cls = ShapeClass.compound :=
  ⟨(C4_wrap_dispatch nullShape).2.1 rfl,
   ((C4_wrap_dispatch vertexA).2.2 rfl).1 rfl,
   ((C4_wrap_dispatch edgeA).2.2 rfl).2.1 rfl,
   ((C4_wrap_dispatch wireA).2.2 rfl).2.2.1 rfl,
   ((C4_wrap_dispatch faceA).2.2 rfl).2.2.2.1 rfl,
   ((C4_wrap_dispatch shellA).2.2 rfl).2.2.2.2.1 rfl,
   ((C4_wrap_dispatch solidA).2.2 rfl).2.2.2.2.2.1 rfl,
   ((C4_wrap_dispatch compsolidA).2.2 rfl).2.2.2.2.2.2.1 rfl,
   ((C4_wrap_dispatch compoundA).2.2 rfl).2.2.2.2.2.2.2 rfl⟩

/-- C5: every typed constructor rejects a null handle (`ValueError`) and
rejects a non-null handle of the wrong kernel-reported type with a
`TypeError`; whenever a typed constructor succeeds, the handle was
non-null and of the requested kind, and the produced instance carries
exactly that handle and class tag — so no typed instance with a null or
mismatched handle is ever produced. -/
theorem C5_typed_init (h : TopoDS_Shape) :
    (h.IsNull = true →
      Vertex.init h = .error .valueError ∧
      Edge.init h = .error .valueError ∧
      Wire.init h = .error .valueError ∧
      Face.init h = .error .valueError ∧
      Shell.init h = .error .valueError ∧
      Solid.init h = .error .valueError ∧
      CompSolid.init h = .error .valueError ∧
      Compound.init h = .error .valueError) ∧
    (h.IsNull = false →
      (¬ h.ShapeType = Shape.VERTEX → Vertex.init h = .error .typeError) ∧
      (¬ h.ShapeType = Shape.EDGE → Edge.init h = .error .typeError) ∧
      (¬ h.ShapeType = Shape.WIRE → Wire.init h = .error .typeError) ∧
      (¬ h.ShapeType = Shape.FACE → Face.init h = .error .typeError) ∧
      (¬ h.ShapeType = Shape.SHELL → Shell.init h = .error .typeError) ∧
      (¬ h.ShapeType = Shape.SOLID → Solid.init h = .error .typeError) ∧
      (¬ h.ShapeType = Shape.COMPSOLID →
        CompSolid.init h = .error .typeError) ∧
      (¬ h.ShapeType = Shape.COMPOUND →
        Compound.init h = .error .typeError)) ∧
    (∀ s : Shape,
      (Vertex.init h = .ok s →
        h.IsNull = false ∧ h.ShapeType = Shape.VERTEX ∧
        s = { cls := .vertex, shape := h }) ∧
      (Edge.init h = .ok s →
        h.IsNull = false ∧ h.ShapeType = Shape.EDGE ∧
        s = { cls := .edge, shape := h }) ∧
      (Wire.init h = .ok s →
        h.IsNull = false ∧ h.ShapeType = Shape.WIRE ∧
        s = { cls := .wire, shape := h }) ∧
      (Face.init h = .ok s →
        h.IsNull = false ∧ h.ShapeType = Shape.FACE ∧
        s = { cls := .face, shape := h }) ∧
      (Shell.init h = .ok s →
        h.IsNull = false ∧ h.ShapeType = Shape.SHELL ∧
        s = { cls := .shell, shape := h }) ∧
      (Solid.init h = .ok s →
        h.IsNull = false ∧ h.ShapeType = Shape.SOLID ∧
        s = { cls := .solid, shape := h }) ∧
      (CompSolid.init h = .ok s →
        h.IsNull = false ∧ h.ShapeType = Shape.COMPSOLID ∧
        s = { cls := .compsolid, shape := h }) ∧
      (Compound.init h = .ok s →
        h.IsNull = false ∧ h.ShapeType = Shape.COMPOUND ∧
        s = { cls := .compound, shape := h })) := by
  refine ⟨fun hn => ?_, fun hn => ?_, fun s => ?_⟩
  · exact ⟨by simp [Vertex.init, hn], by simp [Edge.init, hn],
      by simp [Wire.init, hn], by simp [Face.init, hn],
      by simp [Shell.init, hn], by simp [Solid.init, hn],
      by simp [CompSolid.init, hn], by simp [Compound.init, hn]⟩
  · refine ⟨?_, ?_, ?_, ?_, ?_, ?_, ?_, ?_⟩ <;> intro ht
    · simp [Vertex.init, hn, ht]
    · simp [Edge.init, hn, ht]
    · simp [Wire.init, hn, ht]
    · simp [Face.init, hn, ht]
    · simp [Shell.init, hn, ht]
    · simp [Solid.init, hn, ht]
    · simp [CompSolid.init, hn, ht]
    · simp [Compound.init, hn, ht]
  · refine ⟨?_, ?_, ?_, ?_, ?_, ?_, ?_, ?_⟩ <;> intro hok
    · unfold Vertex.init at hok
      split at hok
      · exact absurd hok (by simp)
      · split at hok
        · exact absurd hok (by simp)
        · simp_all
    · unfold Edge.init at hok
      split at hok
      · exact absurd hok (by simp)
      · split at hok
        · exact absurd hok (by simp)
        · simp_all
    · unfold Wire.init at hok
      split at hok
      · exact absurd hok (by simp)
      · split at hok
        · exact absurd hok (by simp)
        · simp_all
    · unfold Face.init at hok
      split at hok
      · exact absurd hok (by simp)
      · split at hok
        · exact absurd hok (by simp)
        · simp_all
    · unfold Shell.init at hok
      split at hok
      · exact absurd hok (by simp)
      · split at hok
        · exact absurd hok (by simp)
        · simp_all
    · unfold Solid.init at hok
      split at hok
      · exact absurd hok (by simp)
      · split at hok
        · exact absurd hok (by simp)
        · simp_all
    · unfold CompSolid.init at hok
      split at hok
      · exact absurd hok (by simp)
      · split at hok
        · exact absurd hok (by simp)
        · simp_all
    · unfold Compound.init at hok
      split at hok
      · exact absurd hok (by simp)
      · split at hok
        · exact absurd hok (by simp)
        · simp_all

/-- Witness for C5: a null handle is rejected with `ValueError` by the
vertex constructor; a non-null edge handle is rejected with `TypeError`
by the vertex constructor; a matching vertex handle succeeds. -/
theorem C5_typed_init_witness :
    Vertex.init nullShape = .error .valueError ∧
    Vertex.init edgeA = .error .typeError ∧
    (vertexA.IsNull = false ∧ vertexA.ShapeType = Shape.VERTEX ∧
      ({ cls := .vertex, shape := vertexA } : Shape) =
        { cls := .vertex, shape := vertexA }) :=
  ⟨((C5_typed_init nullShape).1 rfl).1,
   (((C5_typed_init edgeA).2.1 rfl).1 (by decide)),
   (((C5_typed_init vertexA).2.2 { cls := .vertex, shape := vertexA }).1
      rfl)⟩

/-- Two handles carrying the same `TShape` and `Location` (differing
orientation), and a handle with different identity data. -/
def solidA_rev : TopoDS_Shape :=
  { IsNull := false, ShapeType := .TopAbs_SOLID, tshape := 3,
    location := 0, orientation := 1 }

/-- C7: for handles that are kernel-"same" (same `TShape` and
`Location`), the two wrappers produced by `Shape.wrap` compare equal
under `is_same`, hence under `==` (which `__eq__` delegates to
`is_same`), and produce identical hash codes — the kernel hash is
computed from the `TShape` and `Location` only. -/
theorem C7_same_eq_hash (h1 h2 : TopoDS_Shape)
    (hsame : h1.IsSame h2 = true) :
    (Shape.wrap h1).is_same (Shape.wrap h2) = true ∧
    ((Shape.wrap h1) == (Shape.wrap h2)) = true ∧
    (Shape.wrap h1).hash_code = (Shape.wrap h2).hash_code := by
  have hts : h1.tshape = h2.tshape ∧ h1.location = h2.location := by
    simpa [TopoDS_Shape.IsSame] using hsame
  have hs : (Shape.wrap h1).is_same (Shape.wrap h2) = true := by
    simp [Shape.is_same, Shape.wrap_shape, TopoDS_Shape.IsSame,
      hts.1, hts.2]
  refine ⟨hs, hs, ?_⟩
  simp [Shape.hash_code, Shape.wrap_shape, TopoDS_Shape.HashCode,
    hts.1, hts.2]

/-- Witness for C7: two solid handles sharing `TShape` and `Location`
but with opposite orientation. -/
theorem C7_same_eq_hash_witness :
    (Shape.wrap solidA).is_same (Shape.wrap solidA_rev) = true ∧
    ((Shape.wrap solidA) == (Shape.wrap solidA_rev)) = true ∧
    (Shape.wrap solidA).hash_code = (Shape.wrap solidA_rev).hash_code :=
  C7_same_eq_hash solidA solidA_rev (by decide)

/-! ## Sub-shape accessors (`Shape._get_shapes` and friends)

The kernel's `TopExp_Explorer` traversal is modelled as a function from a
handle and a requested sub-shape type to the list of handles the explorer
visits, in order — possibly with repeats, which is exactly what the
deduplication loop in `_get_shapes` guards against. -/

/-- The topology-exploration kernel: the sequence of handles
`TopExp_Explorer(shape, type)` visits via `More`/`Current`/`Next`. -/
structure TopoKernel where
  explore : TopoDS_Shape → TopAbs_ShapeEnum → List TopoDS_Shape

/-- `Shape._get_shapes(type_)`: wrap each visited handle and append it
only when no already-collected wrapper `is_same` it (the Python `while`
loop over the explorer, with its inner uniqueness scan). -/
def Shape.get_shapes (k : TopoKernel) (s : Shape) (type_ : TopAbs_ShapeEnum) :
    List Shape :=
  (k.explore s.shape type_).foldl
    (fun shapes cur =>
      let si := Shape.wrap cur
      if shapes.any (fun x => x.is_same si) then shapes
      else shapes ++ [si])
    []

/-- `Shape.vertices`. -/
def Shape.vertices (k : TopoKernel) (s : Shape) : List Shape :=
  s.get_shapes k Shape.VERTEX

/-- `Shape.edges`. -/
def Shape.edges (k : TopoKernel) (s : Shape) : List Shape :=
  s.get_shapes k Shape.EDGE

/-- `Shape.wires`. -/
def Shape.wires (k : TopoKernel) (s : Shape) : List Shape :=
  s.get_shapes k Shape.WIRE

/-- `Shape.faces`. -/
def Shape.faces (k : TopoKernel) (s : Shape) : List Shape :=
  s.get_shapes k Shape.FACE

/-- `Shape.shells`. -/
def Shape.shells (k : TopoKernel) (s : Shape) : List Shape :=
  s.get_shapes k Shape.SHELL

/-- `Shape.solids`. -/
def Shape.solids (k : TopoKernel) (s : Shape) : List Shape :=
  s.get_shapes k Shape.SOLID

/-- `Shape.compounds`. -/
def Shape.compounds (k : TopoKernel) (s : Shape) : List Shape :=
  s.get_shapes k Shape.COMPOUND

/-- `Shape.compsolids`. -/
def Shape.compsolids (k : TopoKernel) (s : Shape) : List Shape :=
  s.get_shapes k Shape.COMPSOLID

/-- No two elements of the list satisfy `is_same`, in either order. -/
def no_same_pair (l : List Shape) : Prop :=
  l.Pairwise (fun a b => a.is_same b = false ∧ b.is_same a = false)

/-- `is_same` is symmetric. -/
theorem Shape.is_same_comm (a b : Shape) : a.is_same b = b.is_same a := by
  simp only [Shape.is_same, TopoDS_Shape.IsSame, decide_eq_decide]
  constructor <;> (rintro ⟨h1, h2⟩; exact ⟨h1.symm, h2.symm⟩)

/-- The deduplication loop of `_get_shapes` preserves pairwise
distinctness-under-`is_same` of its accumulator. -/
theorem get_shapes_loop_no_same_pair (l : List TopoDS_Shape)
    (acc : List Shape) (hacc : no_same_pair acc) :
    no_same_pair (l.foldl
      (fun shapes cur =>
        let si := Shape.wrap cur
        if shapes.any (fun x => x.is_same si) then shapes
        else shapes ++ [si])
      acc) := by
  induction l generalizing acc with
  | nil => exact hacc
  | cons cur rest ih =>
      simp only [List.foldl_cons]
      by_cases hmem : acc.any (fun x => x.is_same (Shape.wrap cur)) = true
      · simpa [hmem] using ih acc hacc
      · have hall : ∀ x ∈ acc, x.is_same (Shape.wrap cur) = false := by
          intro x hx
          cases hval : x.is_same (Shape.wrap cur) with
          | false => rfl
          | true => exact absurd (List.any_eq_true.mpr ⟨x, hx, hval⟩) hmem
        have happ : no_same_pair (acc ++ [Shape.wrap cur]) := by
          unfold no_same_pair at hacc ⊢
          rw [List.pairwise_append]
          refine ⟨hacc, List.pairwise_singleton _ _, ?_⟩
          intro a ha b hb
          simp only [List.mem_singleton] at hb
          subst hb
          exact ⟨hall a ha, (Shape.is_same_comm _ a).trans (hall a ha)⟩
        simpa [hmem] using ih (acc ++ [Shape.wrap cur]) happ

/-- C10: every sub-shape accessor list — vertices, edges, wires, faces,
shells, solids, compounds, compsolids — is deduplicated: no two elements
of a returned list satisfy `is_same`, whatever sequence of (possibly
repeated) sub-shapes the kernel explorer visits. -/
theorem C10_accessors_dedup (k : TopoKernel) (s : Shape) :
    no_same_pair (s.vertices k) ∧ no_same_pair (s.edges k) ∧
    no_same_pair (s.wires k) ∧ no_same_pair (s.faces k) ∧
    no_same_pair (s.shells k) ∧ no_same_pair (s.solids k) ∧
    no_same_pair (s.compounds k) ∧ no_same_pair (s.compsolids k) ∧
    ∀ type_, no_same_pair (s.get_shapes k type_) := by
  have base : ∀ type_, no_same_pair (s.get_shapes k type_) := fun type_ =>
    get_shapes_loop_no_same_pair (k.explore s.shape type_) []
      (List.Pairwise.nil)
  exact ⟨base _, base _, base _, base _, base _, base _, base _, base _,
    base⟩

/-! ## `BBox` (afem/topology/entities.py)

The kernel's `Bnd_Box` state is its void flag, the six stored bounds and
the gap.  Numeric values are modelled as rationals; `math.sqrt` is
modelled by `Rat.sqrt`, which like the float function always returns a
number (never a sentinel) and agrees with it on perfect squares — only 0
is ever relevant here.  Each Python property is embedded with result type
`Option _`, where `none` is the `None` sentinel and `some v` a numeric
(or point) value. -/

/-- A 3-D point value (`afem.geometry.entities.Point`). -/
structure PointQ where
  x : ℚ
  y : ℚ
  z : ℚ
deriving DecidableEq, Repr

/-- Kernel `Bnd_Box` state: void flag, stored per-axis bounds, gap. -/
structure Bnd_Box where
  void_flag : Bool
  xlo : ℚ
  xhi : ℚ
  ylo : ℚ
  yhi : ℚ
  zlo : ℚ
  zhi : ℚ
  gap_value : ℚ
deriving DecidableEq, Repr

namespace Bnd_Box

/-- Kernel `IsVoid()`. -/
def IsVoid (b : Bnd_Box) : Bool := b.void_flag

/-- Kernel `GetGap()`. -/
def GetGap (b : Bnd_Box) : ℚ := b.gap_value

/-- Kernel `CornerMin()`: the stored minima widened by the gap. -/
def CornerMin (b : Bnd_Box) : PointQ :=
  ⟨b.xlo - b.gap_value, b.ylo - b.gap_value, b.zlo - b.gap_value⟩

/-- Kernel `CornerMax()`: the stored maxima widened by the gap. -/
def CornerMax (b : Bnd_Box) : PointQ :=
  ⟨b.xhi + b.gap_value, b.yhi + b.gap_value, b.zhi + b.gap_value⟩

/-- Kernel `SquareExtent()`: 0 on a void box, else the squared diagonal
of the gap-widened box. -/
def SquareExtent (b : Bnd_Box) : ℚ :=
  if b.IsVoid then 0
  else (b.CornerMax.x - b.CornerMin.x) ^ 2 +
    (b.CornerMax.y - b.CornerMin.y) ^ 2 +
    (b.CornerMax.z - b.CornerMin.z) ^ 2

end Bnd_Box

namespace BBox

/-- `BBox()`: a freshly constructed (void) box. -/
def init : Bnd_Box :=
  { void_flag := true, xlo := 0, xhi := 0, ylo := 0, yhi := 0,
    zlo := 0, zhi := 0, gap_value := 0 }

/-- `BBox.is_void`. -/
def is_void (b : Bnd_Box) : Bool := b.IsVoid

/-- `BBox.pmin`: `None` if empty, else the lower corner. -/
def pmin (b : Bnd_Box) : Option PointQ :=
  if b.IsVoid then none else some b.CornerMin

/-- `BBox.pmax`: `None` if empty, else the upper corner. -/
def pmax (b : Bnd_Box) : Option PointQ :=
  if b.IsVoid then none else some b.CornerMax

/-- `BBox.xmin`. -/
def xmin (b : Bnd_Box) : Option ℚ :=
  if b.IsVoid then none else some b.CornerMin.x

/-- `BBox.xmax`. -/
def xmax (b : Bnd_Box) : Option ℚ :=
  if b.IsVoid then none else some b.CornerMax.x

/-- `BBox.ymin`. -/
def ymin (b : Bnd_Box) : Option ℚ :=
  if b.IsVoid then none else some b.CornerMin.y

/-- `BBox.ymax`. -/
def ymax (b : Bnd_Box) : Option ℚ :=
  if b.IsVoid then none else some b.CornerMax.y

/-- `BBox.zmin`. -/
def zmin (b : Bnd_Box) : Option ℚ :=
  if b.IsVoid then none else some b.CornerMin.z

/-- `BBox.zmax`. -/
def zmax (b : Bnd_Box) : Option ℚ :=
  if b.IsVoid then none else some b.CornerMax.z

/-- `BBox.gap`: `return self.GetGap()` — unconditionally numeric, with
no void guard and hence never the `None` sentinel. -/
def gap (b : Bnd_Box) : Option ℚ :=
  some b.GetGap

/-- `BBox.diagonal`: `return sqrt(self.SquareExtent())` — unconditionally
numeric, with no void guard and hence never the `None` sentinel. -/
def diagonal (b : Bnd_Box) : Option ℚ :=
  some (Rat.sqrt b.SquareExtent)

end BBox

/-- C6 counterexample: on the freshly constructed (void) box, `gap` and
`diagonal` do not report the empty sentinel — both return numeric
values (0), refuting the claim that all derived accessors, gap and
diagonal included, report the sentinel on a void box. -/
theorem C6_void_counterexample :
    BBox.is_void BBox.init = true ∧
    BBox.gap BBox.init = some 0 ∧ BBox.gap BBox.init ≠ none ∧
    BBox.diagonal BBox.init = some 0 ∧ BBox.diagonal BBox.init ≠ none := by
  refine ⟨rfl, rfl, by simp [BBox.gap], ?_, by simp [BBox.diagonal]⟩
  show some (Rat.sqrt (Bnd_Box.SquareExtent BBox.init)) = some 0
  have h0 : Bnd_Box.SquareExtent BBox.init = 0 := rfl
  rw [h0]
  norm_num [Rat.sqrt]

/-- C6 amended: on a void box, the corner accessors `pmin`, `pmax`,
`xmin`, `xmax`, `ymin`, `ymax`, `zmin`, `zmax` all report the `None`
sentinel without raising; `gap` and `diagonal` instead return numeric
values — the stored gap, and the square root of `SquareExtent` (which
the kernel defines as 0 on a void box). -/
theorem C6_void_accessors (b : Bnd_Box) (hv : BBox.is_void b = true) :
    BBox.pmin b = none ∧ BBox.pmax b = none ∧
    BBox.xmin b = none ∧ BBox.xmax b = none ∧
    BBox.ymin b = none ∧ BBox.ymax b = none ∧
    BBox.zmin b = none ∧ BBox.zmax b = none ∧
    BBox.gap b = some b.GetGap ∧
    BBox.diagonal b = some 0 := by
    have hv' : b.IsVoid = true := hv
    refine ⟨?_, ?_, ?_, ?_, ?_, ?_, ?_, ?_, rfl, ?_⟩ <;>
      simp [BBox.pmin, BBox.pmax, BBox.xmin, BBox.xmax, BBox.ymin,
        BBox.ymax, BBox.zmin, BBox.zmax, BBox.diagonal,
        Bnd_Box.SquareExtent, hv']

/-- Witness for the amended C6 at the freshly constructed box. -/
theorem C6_void_accessors_witness :
    BBox.pmin BBox.init = none ∧ BBox.pmax BBox.init = none ∧
    BBox.xmin BBox.init = none ∧ BBox.xmax BBox.init = none ∧
    BBox.ymin BBox.init = none ∧ BBox.ymax BBox.init = none ∧
    BBox.zmin BBox.init = none ∧ BBox.zmax BBox.init = none ∧
    BBox.gap BBox.init = some (Bnd_Box.GetGap BBox.init) ∧
    BBox.diagonal BBox.init = some 0 :=
  C6_void_accessors BBox.init rfl

/-! ## `FixAssembly` (afem/structure/fix.py)

The assembly/part collaborators (`Assembly`, `AssemblyAPI.get_assy`) and
the healing facility (`FixShape`) live in repository modules that are not
among the sources, so they are modelled from the spec.  Healing and the
tolerance operations are kernel capabilities, modelled as function-valued
parameters; in-place part mutation is translated to returning the updated
assembly. -/

namespace afem

/-- A part: an identity plus its current shape payload. -/
structure Part where
  pid : Nat
  shape : TopoDS_Shape
deriving DecidableEq, Repr

/-- Modelled from the spec: an `Assembly` is a hierarchical container of
parts, assumed only to expose "get all parts" (`get_parts`, here the
`parts` field, sub-assemblies already flattened in) and "flatten to one
compound" (`as_compound`, a kernel capability below). -/
structure Assembly where
  parts : List Part
deriving DecidableEq, Repr

/-- An assembly argument: `None`, a name, or an explicit `Assembly`. -/
inductive AssyRef where
  | null
  | byName (s : String)
  | byObj (a : Assembly)

/-- The process-wide assembly registry: the active assembly and the
name-to-assembly mapping that resolution consults. -/
structure AssyContext where
  active : Option Assembly
  lookup : String → Option Assembly

/-- Modelled from the spec: `AssemblyAPI.get_assy` resolves an assembly
reference — a name, an explicit object, or `None` meaning the
process-wide active assembly — to a concrete `Assembly`, or fails to
produce one (`none`, covering every value the subsequent `isinstance`
check rejects). -/
def AssemblyAPI.get_assy (ctx : AssyContext) : AssyRef → Option Assembly
  | .null => ctx.active
  | .byName s => ctx.lookup s
  | .byObj a => some a

/-- The shape-healing kernel consumed by `FixAssembly`: `FixShape`'s
`apply` parameterized by the constructor arguments (the aggregate
compound, precision, min and max tolerance — `none` meaning the kernel
default), the static `limit_tolerance`, the static `set_tolerance`, and
the assembly-flattening capability `as_compound`. -/
structure FixKernel where
  fix_apply : TopoDS_Shape → Option ℚ → Option ℚ → Option ℚ →
    TopoDS_Shape → TopoDS_Shape
  limit_tol : TopoDS_Shape → ℚ → Bool
  set_tol : TopoDS_Shape → ℚ → Unit
  as_compound : Assembly → TopoDS_Shape

/-- `FixAssembly.__init__`: resolve the assembly (raising `TypeError` if
no `Assembly` instance is found), flatten it to a compound, build the
healing operator from `(compound, precision, min_tol, max_tol)`, then
heal every part's shape in place.  The returned assembly is the mutated
one. -/
def FixAssembly.init (k : FixKernel) (ctx : AssyContext) (assy : AssyRef)
    (precision min_tol max_tol : Option ℚ) : Except PyError Assembly :=
  match AssemblyAPI.get_assy ctx assy with
  | none => .error .typeError
  | some a =>
      let compound := k.as_compound a
      .ok { parts := a.parts.map (fun part =>
        { part with
          shape := k.fix_apply compound precision min_tol max_tol
            part.shape }) }

/-- `FixAssembly.limit_tolerance`: resolve the assembly the same way
(raising the same `TypeError`), flatten it, and return what the kernel's
tolerance clamp reports. -/
def FixAssembly.limit_tolerance (k : FixKernel) (ctx : AssyContext)
    (assy : AssyRef) (tol : ℚ) : Except PyError Bool :=
  match AssemblyAPI.get_assy ctx assy with
  | none => .error .typeError
  | some a => .ok (k.limit_tol (k.as_compound a) tol)

/-- `FixAssembly.set_tolerance`: resolve the assembly the same way
(raising the same `TypeError`), flatten it, and force-set the tolerance
(returns `None`). -/
def FixAssembly.set_tolerance (k : FixKernel) (ctx : AssyContext)
    (assy : AssyRef) (tol : ℚ) : Except PyError Unit :=
  match AssemblyAPI.get_assy ctx assy with
  | none => .error .typeError
  | some a => .ok (k.set_tol (k.as_compound a) tol)

/-- A trivial healing kernel and registry for the concrete witnesses. -/
def idFixKernel : FixKernel :=
  { fix_apply := fun _ _ _ _ s => { s with location := s.location + 1 },
    limit_tol := fun _ _ => true,
    set_tol := fun _ _ => (),
    as_compound := fun _ => compoundA }

/-- A registry with no active assembly and an empty name table. -/
def emptyAssyContext : AssyContext :=
  { active := none, lookup := fun _ => none }

/-- A two-part assembly used in the C9 witness. -/
def assyAB : Assembly :=
  { parts := [{ pid := 0, shape := solidA }, { pid := 1, shape := solidB }] }

/-- C8: the constructor, `limit_tolerance` and `set_tolerance` all
resolve their assembly argument through the same `get_assy` (a missing
argument falls back to the active assembly), and whenever that resolution
does not produce an `Assembly` instance, all three raise the same
`TypeError` — aborting before any healing or tolerance operation, so no
result and no mutated assembly is produced on that path. -/
theorem C8_resolution_uniform (k : FixKernel) (ctx : AssyContext)
    (assy : AssyRef) (precision min_tol max_tol : Option ℚ) (tol1 tol2 : ℚ)
    (hfail : AssemblyAPI.get_assy ctx assy = none) :
    AssemblyAPI.get_assy ctx AssyRef.null = ctx.active ∧
    FixAssembly.init k ctx assy precision min_tol max_tol =
      .error .typeError ∧
    FixAssembly.limit_tolerance k ctx assy tol1 = .error .typeError ∧
    FixAssembly.set_tolerance k ctx assy tol2 = .error .typeError := by
  exact ⟨rfl,
    by simp [FixAssembly.init, hfail],
    by simp [FixAssembly.limit_tolerance, hfail],
    by simp [FixAssembly.set_tolerance, hfail]⟩

/-- Witness for C8: an empty registry with a `None` argument (the active
assembly is absent, so resolution fails in all three operations). -/
theorem C8_resolution_uniform_witness :
    FixAssembly.init idFixKernel emptyAssyContext AssyRef.null
      none none none = .error .typeError ∧
    FixAssembly.limit_tolerance idFixKernel emptyAssyContext AssyRef.null
      (1 / 10000000) = .error .typeError ∧
    FixAssembly.set_tolerance idFixKernel emptyAssyContext AssyRef.null
      1 = .error .typeError :=
  (C8_resolution_uniform idFixKernel emptyAssyContext AssyRef.null
    none none none (1 / 10000000) 1 rfl).2

/-- C9: on a successfully resolved assembly, the constructor heals every
part's shape with the operator built from the flattened compound and
replaces each shape in place; the part count and the identity sequence
are unchanged — every part keeps its place and only its shape payload
changes. -/
theorem C9_heal_frame (k : FixKernel) (ctx : AssyContext) (assy : AssyRef)
    (precision min_tol max_tol : Option ℚ) (a : Assembly)
    (hres : AssemblyAPI.get_assy ctx assy = some a) :
    FixAssembly.init k ctx assy precision min_tol max_tol =
      .ok { parts := a.parts.map (fun part =>
        { part with
          shape := k.fix_apply (k.as_compound a) precision min_tol max_tol
            part.shape }) } ∧
    ∀ a', FixAssembly.init k ctx assy precision min_tol max_tol = .ok a' →
      a'.parts.length = a.parts.length ∧
      a'.parts.map Part.pid = a.parts.map Part.pid := by
  have hinit : FixAssembly.init k ctx assy precision min_tol max_tol =
      .ok { parts := a.parts.map (fun part =>
        { part with
          shape := k.fix_apply (k.as_compound a) precision min_tol max_tol
            part.shape }) } := by
    simp [FixAssembly.init, hres]
  refine ⟨hinit, fun a' ha' => ?_⟩
  rw [hinit] at ha'
  cases ha'
  constructor
  · simp
  · simp

/-- Witness for C9 on a concrete two-part assembly passed explicitly. -/
theorem C9_heal_frame_witness :
    FixAssembly.init idFixKernel emptyAssyContext (AssyRef.byObj assyAB)
      none none none =
      .ok { parts := [{ pid := 0, shape := { solidA with location := 1 } },
                      { pid := 1, shape := { solidB with location := 1 } }] } :=
  (C9_heal_frame idFixKernel emptyAssyContext (AssyRef.byObj assyAB)
    none none none assyAB rfl).1

end afem
